import Mathlib

/-!
Verification development for the chart-generation subsystem of the
`docu-chan` repository (src/agents/doc_generator/chart/).

The Python source is shallowly embedded: pure string manipulation is
translated to executable functions over `List Char`, floating-point
scores are modelled over `ℚ`, external calls (language model, renderer)
are explicit oracle parameters, and Python exceptions are `Except`
values.  The orchestration loop (`ChartLoop.run`) is embedded as a
fuel-indexed state-transition function together with ghost fields that
record every render call, its output name, and every coder call.
-/

namespace DocuChan

/-! ## Character-list string utilities (mirroring Python `str` operations) -/

/-- characters of a Lean string -/
def chars (s : String) : List Char := s.data

/-- build a Lean string back from characters -/
def ofChars (l : List Char) : String := ⟨l⟩

/-- `leadsWith pat l` : does `l` start with `pat`?  (Python `str.startswith`). -/
def leadsWith : List Char → List Char → Bool
  | [], _ => true
  | _ :: _, [] => false
  | a :: as, b :: bs => a == b && leadsWith as bs

/-- index of the first occurrence of `needle` in `hay`
(Python `str.find`, `none` for `-1`). -/
def findSub (needle : List Char) : List Char → Option Nat
  | [] => if leadsWith needle [] then some 0 else none
  | c :: cs =>
    if leadsWith needle (c :: cs) then some 0
    else (findSub needle cs).map (· + 1)

/-- substring containment (Python `in`). -/
def containsSub (needle hay : List Char) : Bool := (findSub needle hay).isSome

/-- whitespace as used by Python `str.split()` / `str.strip()` on the
inputs of this code base -/
def isWs (c : Char) : Bool := c == ' ' || c == '\t' || c == '\n' || c == '\r'

/-- Python `str.strip()` -/
def trimWs (l : List Char) : List Char :=
  ((l.dropWhile isWs).reverse.dropWhile isWs).reverse

/-- Python `str.lstrip(set)` -/
def lstripChars (set : List Char) (l : List Char) : List Char :=
  l.dropWhile (fun c => c ∈ set)

/-- Python `str.upper()` -/
def toUpperChars (l : List Char) : List Char := l.map Char.toUpper

/-- Python `str.lower()` -/
def toLowerChars (l : List Char) : List Char := l.map Char.toLower

/-- Python `str.split()` (split on whitespace runs, dropping empties);
`acc` holds the characters of the current token, reversed. -/
def splitWsAux : List Char → List Char → List (List Char)
  | [], acc => if acc = [] then [] else [acc.reverse]
  | c :: cs, acc =>
    if isWs c then
      if acc = [] then splitWsAux cs [] else acc.reverse :: splitWsAux cs []
    else splitWsAux cs (c :: acc)

def splitWs (l : List Char) : List (List Char) := splitWsAux l []

/-- Python `str.replace pat repl` (left-to-right, non-overlapping), driven
by a fuel counter so the kernel can evaluate it; every step consumes at
least one character, so fuel `l.length` (as passed by `replaceAll`) always
suffices and the fuel-exhausted base case is unreachable. -/
def replaceAllAux (pat repl : List Char) : Nat → List Char → List Char
  | 0, l => l
  | fuel + 1, l =>
    match l with
    | [] => []
    | c :: cs =>
      if pat ≠ [] && leadsWith pat (c :: cs) then
        repl ++ replaceAllAux pat repl fuel (cs.drop (pat.length - 1))
      else
        c :: replaceAllAux pat repl fuel cs

/-- Python `str.replace pat repl`;
all uses in the source have a non-empty `pat`. -/
def replaceAll (pat repl : List Char) (l : List Char) : List Char :=
  replaceAllAux pat repl l.length l

/-! ## CHARTAF data model (src/agents/doc_generator/chart/chartaf.py) -/

/-- `EvaluationQuestion` dataclass (chartaf.py) -/
structure EvaluationQuestion where
  id : Nat
  category : String
  question : String
  focus_points : String
deriving Repr, DecidableEq

/-- `EvaluationResult` dataclass (chartaf.py) -/
structure EvaluationResult where
  id : Nat
  category : String
  question : String
  answer : Bool
  issue : String
  fix : String
deriving Repr, DecidableEq

/-- `VisualInspector.evaluate_question` (chartaf.py lines 285-356).
The VLM backend call is the `reply` oracle value: `.error e` models the
`except Exception` branch, `.ok content` models a normal reply text. -/
def evaluate_question (q : EvaluationQuestion) (reply : Except String String) :
    EvaluationResult :=
  match reply with
  | .error e =>
    { id := q.id, category := q.category, question := q.question,
      answer := false, issue := "Evaluation error: " ++ e, fix := "" }
  | .ok content =>
    let response_text := trimWs (chars content)
    let response_upper := toUpperChars response_text
    let yes_pos := findSub (chars "YES") response_upper
    let no_pos := findSub (chars "NO") response_upper
    let answer : Bool :=
      match yes_pos, no_pos with
      | none, none => false
      | none, some _ => false
      | some _, none => true
      | some y, some n => decide (y < n)
    let fix_suggestion : List Char :=
      if answer then []
      else
        match no_pos with
        | some n =>
          let t := lstripChars (chars ": -,\n") ((response_text).drop (n + 2))
          if t = [] then chars q.focus_points else t
        | none => []
    { id := q.id, category := q.category, question := q.question,
      answer := answer,
      issue := if answer then "" else q.question,
      fix := ofChars fix_suggestion }

/-- `VisualInspector.evaluate_all` (chartaf.py lines 358-389): answer every
question (each backend call independent, indexed by position in the list),
then sort the results back by question id. -/
def evaluate_all (replies : Nat → Except String String)
    (questions : List EvaluationQuestion) : List EvaluationResult :=
  let results := questions.enum.map (fun p => evaluate_question p.2 (replies p.1))
  results.mergeSort (fun a b => a.id ≤ b.id)

/-- `ChartAF.APPROVAL_THRESHOLD` (chartaf.py line 423); Python `0.8` as a rational. -/
def APPROVAL_THRESHOLD : ℚ := 8 / 10

/-- `yes_count = sum(1 for e in evaluations if e.answer)` (chartaf.py line 482) -/
def yes_count (evaluations : List EvaluationResult) : Nat :=
  (evaluations.filter (·.answer)).length

/-- `score = yes_count / len(evaluations) if evaluations else 0.0`
(chartaf.py line 483), over `ℚ`. -/
def chart_score (evaluations : List EvaluationResult) : ℚ :=
  if evaluations = [] then 0
  else (yes_count evaluations : ℚ) / (evaluations.length : ℚ)

/-- `is_approved = score >= self.APPROVAL_THRESHOLD` (chartaf.py line 484) -/
def chart_is_approved (evaluations : List EvaluationResult) : Bool :=
  decide (chart_score evaluations ≥ APPROVAL_THRESHOLD)

/-! ## Mermaid code extraction (src/agents/doc_generator/chart/coder.py) -/

/-- `MermaidCoder._fix_newlines` (coder.py lines 175-192): turn literal
escape sequences back into the characters they denote. -/
def fix_newlines (code : List Char) : List Char :=
  let c1 := replaceAll (chars "\\\\") (chars "\\") code
  let c2 := replaceAll (chars "\\r\\n") (chars "\n") c1
  let c3 := replaceAll (chars "\\n") (chars "\n") c2
  let c4 := replaceAll (chars "\\t") (chars "    ") c3
  replaceAll (chars "\\\"") (chars "\"") c4

/-- First match of the pattern `marker ++ "\s*([\s\S]*?)\s*" ++ "```"`:
content between the first occurrence of `marker` and the next triple
backtick, with surrounding whitespace stripped (the `\s*` of the regex
together with the subsequent `.strip()`). -/
def matchFencedAfter (marker : List Char) (s : List Char) : Option (List Char) :=
  match findSub marker s with
  | none => none
  | some i =>
    let rest := s.drop (i + marker.length)
    match findSub (chars "```") rest with
    | none => none
    | some j => some (trimWs (rest.take j))

/-- fuel-driven worker for `fencedBlocks`; every step consumes at least the
six backticks of one block, so fuel `s.length` always suffices. -/
def fencedBlocksAux : Nat → List Char → List (List Char)
  | 0, _ => []
  | fuel + 1, s =>
    match findSub (chars "```") s with
    | none => []
    | some i =>
      match findSub (chars "```") (s.drop (i + 3)) with
      | none => []
      | some j =>
        trimWs ((s.drop (i + 3)).take j) ::
          fencedBlocksAux fuel ((s.drop (i + 3)).drop (j + 3))

/-- `re.findall(r'```\s*([\s\S]*?)\s*```', response)`: the contents of all
(non-overlapping) fenced blocks in order, each stripped. -/
def fencedBlocks (s : List Char) : List (List Char) :=
  fencedBlocksAux s.length s

/-- the JSON escape sequences `json.loads` accepts on the inputs this
development needs, as (escape letter, decoded character) pairs -/
def escPairs : List (Char × Char) :=
  [('"', '"'), ('\\', '\\'), ('/', '/'), ('n', '\n'), ('t', '\t'), ('r', '\r')]

/-- decode one escape letter via `escPairs` -/
def escChar (c : Char) : Option Char :=
  (escPairs.find? (fun pr => pr.1 == c)).map (·.2)

/-- One JSON string literal: consume up to the closing quote, decoding
escapes; returns the decoded content and the remaining characters. -/
def parseJsonString (l : List Char) : Option (List Char × List Char) :=
  match l with
  | [] => none
  | c :: rest =>
    if c = '"' then some ([], rest)
    else if c = '\\' then
      match rest with
      | [] => none
      | e :: rest2 =>
        (escChar e).bind fun d =>
          (parseJsonString rest2).map fun p => (d :: p.1, p.2)
    else if c = '\n' ∨ c = '\t' ∨ c = '\r' then none
    else (parseJsonString rest).map fun p => (c :: p.1, p.2)

/-- members of a flat JSON object after the opening brace (or a closing
brace for the empty object): `"k" : "v" ("," "k" : "v")* "}"`. -/
def parseJsonMembers : Nat → List Char → Option (List (String × String) × List Char)
  | 0, _ => none
  | _ + 1, l =>
    match l.dropWhile isWs with
    | '}' :: rest => some ([], rest)
    | _ => none

/-- one `"key" : "value"` pair followed by either `,` (more members) or `}`. -/
def parseJsonPairs : Nat → List Char → Option (List (String × String) × List Char)
  | 0, _ => none
  | fuel + 1, l =>
    match l.dropWhile isWs with
    | '"' :: rest =>
      (parseJsonString rest).bind fun (key, afterKey) =>
        match afterKey.dropWhile isWs with
        | ':' :: afterColon =>
          match afterColon.dropWhile isWs with
          | '"' :: rest2 =>
            (parseJsonString rest2).bind fun (val, afterVal) =>
              match afterVal.dropWhile isWs with
              | ',' :: more =>
                (parseJsonPairs fuel more).map fun (ps, rem) =>
                  ((ofChars key, ofChars val) :: ps, rem)
              | '}' :: rem => some ([(ofChars key, ofChars val)], rem)
              | _ => none
          | _ => none
        | _ => none
    | _ => none

/-- `json.loads` restricted to flat string-valued JSON objects; anything
outside this subset is a parse failure (in Python, a raised exception). -/
def parseFlatJson (s : List Char) : Option (List (String × String)) :=
  match s.dropWhile isWs with
  | '{' :: rest =>
    let body :=
      match parseJsonMembers (rest.length + 1) rest with
      | some p => some p
      | none => parseJsonPairs (rest.length + 1) rest
    body.bind fun (obj, rem) =>
      if rem.dropWhile isWs = [] then some obj else none
  | _ => none

/-- Python `str.rfind c` for a single character. -/
def rfindChar (c : Char) (l : List Char) : Option Nat :=
  (findSub [c] l.reverse).map (fun k => l.length - 1 - k)

/-- Modelled from the spec: `MermaidCoder._parse_json_response` is called at
coder.py lines 55, 118 and 159 but its definition is not present under src/
(the repository keeps several historical snapshots of these files).  Per the
spec (§6: the system "must extract a diagram-code block or a JSON payload
from that free text") and the surviving in-repo analogue `BaseAgent.parse_json`
(src/agents/base.py lines 360-374), it takes the first fenced code block
(optionally tagged `json`), else the text between the first `{` and the last
`}` (else the whole text), and parses it as JSON; modelled for flat
string-valued objects, with `none` standing for the raised exception. -/
def parse_json_response (text : List Char) : Option (List (String × String)) :=
  let braceSlice : List Char :=
    match findSub ['{'] text, rfindChar '}' text with
    | some s, some e => (text.take (e + 1)).drop s
    | _, _ => text
  let candidate : List Char :=
    match findSub (chars "```") text with
    | some i =>
      let afterFence := text.drop (i + 3)
      let afterTag :=
        if leadsWith (chars "json") afterFence then afterFence.drop 4 else afterFence
      match findSub (chars "```") afterTag with
      | some j => trimWs (afterTag.take j)
      | none => braceSlice
    | none => braceSlice
  parseFlatJson candidate

/-- Python `dict.get key default` over the parsed flat object (first binding). -/
def jsonGet (obj : List (String × String)) (key : String) : Option String :=
  (obj.find? (fun p => p.1 == key)).map (·.2)

/-- `json_data.get("mermaid_code", json_data.get("code", ""))` -/
def getMermaidField (obj : List (String × String)) : String :=
  (jsonGet obj "mermaid_code").getD ((jsonGet obj "code").getD "")

/-- keyword list of extraction step 2 (coder.py line 162) -/
def jsonKeywords : List (List Char) :=
  [chars "flowchart", chars "graph", chars "sequencediagram", chars "erdiagram"]

/-- keyword list of extraction step 3 (coder.py line 171) -/
def fenceKeywords : List (List Char) :=
  [chars "flowchart", chars "graph", chars "sequencediagram"]

/-- Strategy 1 (coder.py lines 151-155): first ```` ```mermaid ```` fenced block. -/
def strategyTaggedFence (response : List Char) : Option (List Char) :=
  (matchFencedAfter (chars "```mermaid") response).map fix_newlines

/-- Strategy 2 (coder.py lines 157-165): `mermaid_code`/`code` field of a JSON
payload, accepted only when it is non-empty and contains a diagram keyword. -/
def strategyJsonField (response : List Char) : Option (List Char) :=
  match parse_json_response response with
  | none => none
  | some obj =>
    let code := getMermaidField obj
    if code ≠ "" ∧ jsonKeywords.any (fun kw => containsSub kw (toLowerChars (chars code))) then
      some (fix_newlines (chars code))
    else none

/-- Strategy 3 (coder.py lines 167-173): first generic fenced block containing
a diagram keyword. -/
def strategyKeywordFence (response : List Char) : Option (List Char) :=
  (fencedBlocks response).findSome? fun m =>
    if fenceKeywords.any (fun kw => containsSub kw (toLowerChars m)) then
      some (fix_newlines (trimWs m))
    else none

/-- `MermaidCoder._extract_mermaid_code` (coder.py lines 149-173), written as
the source's cascade: tagged fence, then JSON field, then keyword fence. -/
def extract_mermaid_code (response : List Char) : Option (List Char) :=
  match matchFencedAfter (chars "```mermaid") response with
  | some content => some (fix_newlines content)
  | none =>
    match parse_json_response response with
    | some obj =>
      let code := getMermaidField obj
      if code ≠ "" ∧ jsonKeywords.any (fun kw => containsSub kw (toLowerChars (chars code))) then
        some (fix_newlines (chars code))
      else strategyKeywordFence response
    | none => strategyKeywordFence response

/-- take the first non-`none` result of a list of parser outputs -/
def firstSome (l : List (Option (List Char))) : Option (List Char) := l.findSome? id

/-- The extraction pipeline in the order claimed by the specification
(§4.2): tagged fence, then any keyword fence, then JSON field. -/
def extract_spec_order (response : List Char) : Option (List Char) :=
  firstSome [strategyTaggedFence response, strategyKeywordFence response,
             strategyJsonField response]

/-- Modelled from the spec: `MermaidCoder.fix_error` (the spec's `repair`
operation) is invoked at loop.py line 101 but its definition is not present
under src/; per spec §4.2 it shares the extraction contract of `generate`
and must reject output that is textually identical to the broken code,
surfacing that as an error rather than an artifact. -/
def fix_error (response brokenCode : List Char) : Except String (List Char) :=
  match extract_mermaid_code response with
  | none => .error "Failed to extract fixed code"
  | some code =>
    if code = brokenCode then .error "Repair produced unchanged code"
    else .ok code

/-! ## Loop data model (src/models.py) -/

/-- `FeedbackType` enum (models.py lines 490-498) -/
inductive FeedbackType
  | approved | overlap | cutoff | unreadable | layout_issue | style_issue | other
deriving Repr, DecidableEq

/-- `VisualFeedback` dataclass (models.py lines 501-510); `raw_data` is not
modelled (it is never read by the loop). -/
structure VisualFeedback where
  is_approved : Bool
  feedback_type : FeedbackType
  issues : List String
  suggestions : List String
  confidence : ℚ := 0
deriving Repr, DecidableEq

/-- `MermaidCode` dataclass (models.py lines 467-472) -/
structure MermaidCode where
  code : String
  diagram_type : String := "flowchart"
  version : Nat := 1
deriving Repr, DecidableEq

/-- `RenderResult` dataclass (executor.py lines 14-20) -/
structure RenderResult where
  success : Bool
  image_path : Option String := none
  image_base64 : Option String := none
  error : Option String := none
deriving Repr, DecidableEq

/-- `ChartResult` dataclass (models.py lines 542-552); `tpa` and `structure`
are opaque design data and are not modelled. -/
structure ChartResult where
  success : Bool
  mermaid_code : Option MermaidCode := none
  image_path : Option String := none
  image_base64 : Option String := none
  iterations : Nat := 0
  feedback_history : List VisualFeedback := []
  error : Option String := none
deriving Repr, DecidableEq

/-! ## `ChartLoop._extract_error_message` (loop.py lines 604-609) -/

/-- the (already `.strip()`-ed) group of `re.search(r'Error:\s*(.+?)(?:\n|$)', _)`
when matching right after one `"Error:"` occurrence whose tail is `t`:
the greedy `\s*` skips whitespace (newlines included) and the lazy `(.+?)`
then takes the rest of that line; if the tail is whitespace-only, the match
still succeeds (with a whitespace group, empty after `.strip()`) as long as
some space or tab is present, and fails otherwise. -/
def errorGroupAt (t : List Char) : Option (List Char) :=
  let r := t.dropWhile isWs
  if r ≠ [] then some (trimWs (r.takeWhile (· ≠ '\n')))
  else if (t.takeWhile isWs).any (fun c => c ≠ '\n') then some []
  else none

/-- scan for the first `"Error:"` occurrence at which the regex matches -/
def findErrorGroup : List Char → Option (List Char)
  | [] => none
  | c :: cs =>
    if leadsWith (chars "Error:") (c :: cs) then
      match errorGroupAt ((c :: cs).drop 6) with
      | some g => some g
      | none => findErrorGroup cs
    else findErrorGroup cs

/-- `ChartLoop._extract_error_message` (loop.py lines 604-609) -/
def extract_error_message (error : List Char) : List Char :=
  match findErrorGroup error with
  | some g => g.take 100
  | none =>
    let firstLine := (error.takeWhile (· ≠ '\n')).take 100
    if firstLine = [] then chars "Unknown error" else firstLine

/-- convenience wrapper over `String` -/
def extractErrorMessageStr (error : String) : String :=
  ofChars (extract_error_message (chars error))

/-! ## `ChartLoop._is_repeated_feedback` (loop.py lines 611-622) -/

/-- `set(' '.join(issues).lower().split())`, as a duplicate-free token list -/
def tokensOf (issues : List String) : List (List Char) :=
  (splitWs (toLowerChars (chars (String.intercalate " " issues)))).dedup

/-- `ChartLoop._is_repeated_feedback` (loop.py lines 611-622): token-set
overlap ratio of the two most recent rounds, compared against `0.6` over `ℚ`. -/
def is_repeated_feedback (history : List VisualFeedback) : Bool :=
  if history.length < 2 then false
  else
    let lastT := tokensOf (((history.getLast?).map (·.issues)).getD [])
    let prevT := tokensOf (((history.dropLast.getLast?).map (·.issues)).getD [])
    if lastT ≠ [] ∧ prevT ≠ [] then
      decide ((((lastT.filter (· ∈ prevT)).length : ℚ) /
               (max lastT.length prevT.length : ℚ)) > 6 / 10)
    else false

/-! ## `ChartLoop` orchestration (loop.py lines 23-320)

External collaborators (language-model calls, the renderer subprocess) are
oracle functions collected in `LoopEnv`; every oracle takes a call index so
that distinct calls may behave differently.  A raised Python exception is an
`Except.error` value.  `LoopState` carries exactly the local variables of
`ChartLoop.run` plus ghost instrumentation (call counters and the output
name of every render call) used only by the theorems. -/

def MAX_VISUAL_ITERATIONS : Nat := 3
def MAX_RENDER_RETRIES : Nat := 4
def MAX_PING_PONG_ROUNDS : Nat := 3

structure LoopEnv where
  /-- `self.designer.execute(user_request)` outcome (loop.py lines 150-155) -/
  design : Except String Unit
  /-- `coder.generate(structure)` at loop iteration `a` -/
  generate : Nat → Except String MermaidCode
  /-- `coder.revise(structure, prev.code, current_feedback)` at iteration `a` -/
  revise : Nat → String → Option VisualFeedback → Except String MermaidCode
  /-- `coder.fix_error(structure, code, err)`: `n`-th fix call of the session,
  issued to Coder-A (`true`) or Coder-B (`false`) -/
  fixError : Nat → Bool → String → String → Except String MermaidCode
  /-- `self.executor.render(code, output_name)`: `n`-th render call of the
  session, with its output name and the code rendered -/
  render : Nat → String → String → RenderResult
  /-- `self.chartaf.evaluate(...)` at iteration `a` given code and image -/
  evaluate : Nat → String → Option String → Except String VisualFeedback

structure LoopParams where
  skip_inspection : Bool := false
  use_dual_coder : Bool := true
  output_name : Option String := none

structure LoopState where
  visual_iterations : Nat := 0
  render_attempts : Nat := 0
  current_code : Option MermaidCode := none
  current_feedback : Option VisualFeedback := none
  final_image_path : Option String := none
  final_image_base64 : Option String := none
  feedback_history : List VisualFeedback := []
  /-- ghost: number of render calls issued so far in the session -/
  renderCalls : Nat := 0
  /-- ghost: `output_name` of every render call, in order -/
  renderNames : List String := []
  /-- ghost: `(render_attempts value, is the `_fixed` re-render)` key of every
  top-level (non-ping-pong) render call, in order -/
  topKeys : List (Nat × Bool) := []
  /-- ghost: number of `fix_error` calls issued so far -/
  fixCalls : Nat := 0
  /-- ghost: number of `coder.revise` calls issued so far -/
  reviseCalls : Nat := 0
deriving Repr

def initState : LoopState := {}

/-- a ping-pong render call (`executor.render(..., output_name=f"_fix_{attempt}")`) -/
def doRender (env : LoopEnv) (st : LoopState) (name code : String) :
    LoopState × RenderResult :=
  ({ st with renderCalls := st.renderCalls + 1,
             renderNames := st.renderNames ++ [name] },
   env.render st.renderCalls name code)

/-- output name of a top-level render call: `f"attempt_{render_attempts}"`
(loop.py line 197) and `f"{attempt_name}_fixed"` (loop.py line 217) -/
def topName (k : Nat × Bool) : String :=
  if k.2 then "attempt_" ++ toString k.1 ++ "_fixed" else "attempt_" ++ toString k.1

/-- a top-level render call, additionally recording its `(attempt, fixed)` key -/
def doRenderTop (env : LoopEnv) (st : LoopState) (key : Nat × Bool)
    (code : String) : LoopState × RenderResult :=
  ({ st with renderCalls := st.renderCalls + 1,
             renderNames := st.renderNames ++ [topName key],
             topKeys := st.topKeys ++ [key] },
   env.render st.renderCalls (topName key) code)

/-- one attempt record of `_ping_pong_fix`, for the theorems -/
structure PingEvent where
  attempt : Nat
  isA : Bool
  codeUsed : String
  errUsed : String
  fixOk : Bool
  fixedCode : Option MermaidCode
  renderOk : Bool
deriving Repr, DecidableEq

/-- `ChartLoop._ping_pong_fix` (loop.py lines 74-122).  The Python
`for attempt in range(max_attempts)` loop is driven by the structurally
decreasing `remaining` counter with `attempt + remaining = max_attempts`;
`code`/`err` are `current_code`/`current_error`.  Returns the updated (ghost)
state, `some fixed` for `(True, fixed_code)` / `none` for `(False, None)`,
and the trace of attempts. -/
def pingPongAux (env : LoopEnv) :
    Nat → Nat → LoopState → String → String →
    LoopState × Option MermaidCode × List PingEvent
  | 0, _, st, _, _ => (st, none, [])
  | remaining + 1, attempt, st, code, err =>
    let isA : Bool := attempt % 2 == 0
    match env.fixError st.fixCalls isA code err with
    | .error _ =>
      -- 修復失敗，直接傳給下一個 Coder（不更新 current_code）
      let out := pingPongAux env remaining (attempt + 1)
        { st with fixCalls := st.fixCalls + 1 } code err
      (out.1, out.2.1, ⟨attempt, isA, code, err, false, none, false⟩ :: out.2.2)
    | .ok fixed =>
      let st1 : LoopState := { st with fixCalls := st.fixCalls + 1 }
      let pr := doRender env st1 ("_fix_" ++ toString attempt) fixed.code
      if pr.2.success then
        (pr.1, some fixed, [⟨attempt, isA, code, err, true, some fixed, true⟩])
      else
        let out := pingPongAux env remaining (attempt + 1) pr.1 fixed.code
          (extractErrorMessageStr (pr.2.error.getD ""))
        (out.1, out.2.1, ⟨attempt, isA, code, err, true, some fixed, false⟩ :: out.2.2)

def ping_pong_fix (env : LoopEnv) (st : LoopState) (code err : String) :
    LoopState × Option MermaidCode × List PingEvent :=
  pingPongAux env (MAX_PING_PONG_ROUNDS * 2) 0 st code err

/-- the `except`-branch feedback of Step 2 (loop.py lines 186-191) -/
def codeErrorFeedback (e : String) : VisualFeedback :=
  { is_approved := false, feedback_type := .other,
    issues := ["Code error: " ++ e], suggestions := ["Simplify the structure"] }

/-- the generate-or-revise call opening each iteration (loop.py lines 174-182) -/
def coderCall (env : LoopEnv) (st : LoopState) : Except String MermaidCode :=
  match st.current_code with
  | none => env.generate (st.render_attempts + 1)
  | some prev => env.revise (st.render_attempts + 1) prev.code st.current_feedback

/-- `render_attempts += 1` plus the ghost count of the coder call just issued -/
def afterCoder (st : LoopState) : LoopState :=
  { st with render_attempts := st.render_attempts + 1,
            reviseCalls := st.reviseCalls + (if st.current_code.isSome then 1 else 0) }

/-- Step 4 (loop.py lines 257-287): CHARTAF inspection; `.inr` breaks out of
the while loop, `.inl` continues with the next iteration. -/
def evalStep (env : LoopEnv) (p : LoopParams) (a : Nat) (st : LoopState)
    (code : MermaidCode) : LoopState ⊕ LoopState :=
  if p.skip_inspection then .inr st
  else
    match env.evaluate a code.code st.final_image_base64 with
    | .error _ => .inr st
    | .ok fb =>
      let st' := { st with current_feedback := some fb,
                           feedback_history := st.feedback_history ++ [fb] }
      if fb.is_approved then .inr st'
      else if is_repeated_feedback st'.feedback_history then .inr st'
      else .inl st'

/-- One iteration of the `while` body of `ChartLoop.run`
(loop.py lines 169-287): `.inl` is `continue`/fall-through,
`.inr` is `break`. -/
def loopIter (env : LoopEnv) (p : LoopParams) (st : LoopState) :
    LoopState ⊕ LoopState :=
  let a := st.render_attempts + 1
  let st0 := afterCoder st
  match coderCall env st with
  | .error e =>
    let fb := codeErrorFeedback e
    .inl { st0 with current_feedback := some fb,
                    feedback_history := st0.feedback_history ++ [fb] }
  | .ok code =>
    let stG := { st0 with current_code := some code }
    let pr := doRenderTop env stG (a, false) code.code
    if pr.2.success then
      evalStep env p a
        { pr.1 with visual_iterations := pr.1.visual_iterations + 1,
                    final_image_path := pr.2.image_path,
                    final_image_base64 := pr.2.image_base64 } code
    else
      let shortError := extractErrorMessageStr (pr.2.error.getD "")
      if p.use_dual_coder then
        let pp := ping_pong_fix env pr.1 code.code shortError
        match pp.2.1 with
        | some fixedCode =>
          let st3 := { pp.1 with current_code := some fixedCode }
          let pr2 := doRenderTop env st3 (a, true) fixedCode.code
          if pr2.2.success then
            evalStep env p a
              { pr2.1 with visual_iterations := pr2.1.visual_iterations + 1,
                           final_image_path := pr2.2.image_path,
                           final_image_base64 := pr2.2.image_base64 } fixedCode
          else
            let fb : VisualFeedback :=
              { is_approved := false, feedback_type := .other,
                issues := [extractErrorMessageStr (pr2.2.error.getD "")],
                suggestions := ["Simplify diagram"] }
            .inl { pr2.1 with current_feedback := some fb,
                              feedback_history := pr2.1.feedback_history ++ [fb] }
        | none =>
          let fb : VisualFeedback :=
            { is_approved := false, feedback_type := .other,
              issues := [shortError],
              suggestions := ["Simplify diagram significantly"] }
          .inl { pp.1 with current_feedback := some fb,
                           feedback_history := pp.1.feedback_history ++ [fb] }
      else
        let fb : VisualFeedback :=
          { is_approved := false, feedback_type := .other,
            issues := [shortError], suggestions := ["Fix syntax error"] }
        .inl { pr.1 with current_feedback := some fb,
                         feedback_history := pr.1.feedback_history ++ [fb] }

/-- the `while visual_iterations < MAX_VISUAL_ITERATIONS and
render_attempts < max_attempts` loop (loop.py line 169), driven by a fuel
counter; every iteration increments `render_attempts`, so fuel
`MAX_RENDER_RETRIES * 2` always suffices (see `loopGo_fuel_irrelevant`). -/
def loopGo (env : LoopEnv) (p : LoopParams) : Nat → LoopState → LoopState
  | 0, st => st
  | fuel + 1, st =>
    if st.visual_iterations < MAX_VISUAL_ITERATIONS ∧
       st.render_attempts < MAX_RENDER_RETRIES * 2 then
      match loopIter env p st with
      | .inl st' => loopGo env p fuel st'
      | .inr st' => st'
    else st

/-- result assembly of `ChartLoop.run` (loop.py lines 289-309); the
`_copy_to_output` destination is modelled as the name it is built from. -/
def mkChartResult (p : LoopParams) (st : LoopState) : ChartResult :=
  let has_output := st.current_code.isSome && st.final_image_path.isSome
  let final_output_path : Option String :=
    if has_output then some ((p.output_name.getD "final") ++ ".png") else none
  { success := has_output,
    mermaid_code := st.current_code,
    image_path := match final_output_path with
                  | some q => some q
                  | none => st.final_image_path,
    image_base64 := st.final_image_base64,
    iterations := st.visual_iterations,
    feedback_history := st.feedback_history,
    error := if has_output then none else some "Failed to generate chart" }

/-- the loop state at exit, after a successful design step -/
def finalLoopState (env : LoopEnv) (p : LoopParams) : LoopState :=
  loopGo env p (MAX_RENDER_RETRIES * 2) initState

/-- `ChartLoop.run` (loop.py lines 124-320) -/
def ChartLoop_run (env : LoopEnv) (p : LoopParams) : ChartResult :=
  match env.design with
  | .error e => { success := false, error := some ("Design failed: " ++ e) }
  | .ok _ => mkChartResult p (finalLoopState env p)

/-- the decoupled approval flag carried by a `ChartResult`: the
`is_approved` field of the last recorded evaluation round -/
def lastRoundApproved (r : ChartResult) : Bool :=
  ((r.feedback_history.getLast?).map (·.is_approved)).getD false

/-- the attempts of a trace are consecutive from `k`, with identity A
exactly at the even attempts -/
def consecutiveFrom : Nat → List PingEvent → Prop
  | _, [] => True
  | k, e :: rest => e.attempt = k ∧ e.isA = (k % 2 == 0) ∧ consecutiveFrom (k + 1) rest

/-- after a failed repair call, the next attempt sees the same broken
code and error message -/
def unchangedOnFixFail : List PingEvent → Prop
  | [] => True
  | [_] => True
  | e1 :: e2 :: rest =>
    (e1.fixOk = false → e2.codeUsed = e1.codeUsed ∧ e2.errUsed = e1.errUsed) ∧
    unchangedOnFixFail (e2 :: rest)

/-- the state carried on by either outcome of one loop iteration -/
def stepState (r : LoopState ⊕ LoopState) : LoopState := Sum.elim id id r

/-! ## Concrete environments used by counterexamples and witnesses -/

def failRR : RenderResult := { success := false, error := some "boom" }

def okRR : RenderResult :=
  { success := true, image_path := some "img.png", image_base64 := some "b64" }

/-- renderer always fails; coder calls always succeed -/
def envAllFail : LoopEnv :=
  { design := .ok (),
    generate := fun _ => .ok { code := "g" },
    revise := fun _ _ _ => .ok { code := "g" },
    fixError := fun _ _ _ _ => .ok { code := "f" },
    render := fun _ _ _ => failRR,
    evaluate := fun _ _ _ => .error "never reached" }

/-- an unapproved feedback whose issue tokens repeat round after round -/
def fbBad : VisualFeedback :=
  { is_approved := false, feedback_type := .layout_issue,
    issues := ["bad layout here"], suggestions := [] }

/-- renderer always succeeds; every evaluation returns the same unapproved
feedback, so round 2 plateaus -/
def envPlateau : LoopEnv :=
  { design := .ok (),
    generate := fun _ => .ok { code := "g" },
    revise := fun _ _ _ => .ok { code := "g" },
    fixError := fun _ _ _ _ => .error "unused",
    render := fun _ _ _ => okRR,
    evaluate := fun _ _ _ => .ok fbBad }

/-- an unapproved feedback with no issue strings: the plateau check sees an
empty token set and never fires, so the loop runs until a budget cap -/
def fbEmptyIssues : VisualFeedback :=
  { is_approved := false, feedback_type := .other, issues := [], suggestions := [] }

/-- renderer always succeeds, every evaluation is unapproved (with no
issues): exits with `success = true` yet never approved -/
def envUnapproved : LoopEnv :=
  { design := .ok (),
    generate := fun _ => .ok { code := "g" },
    revise := fun _ _ _ => .ok { code := "g" },
    fixError := fun _ _ _ _ => .error "unused",
    render := fun _ _ _ => okRR,
    evaluate := fun _ _ _ => .ok fbEmptyIssues }

/-- coder A's repairs raise, coder B's first repair renders successfully -/
def envPing : LoopEnv :=
  { design := .ok (),
    generate := fun _ => .error "unused",
    revise := fun _ _ _ => .error "unused",
    fixError := fun _ isA _ _ => if isA then .error "no" else .ok { code := "fixed" },
    render := fun _ _ _ => okRR,
    evaluate := fun _ _ _ => .error "unused" }

/-- a loop state at the visual-iteration cap, used to witness the
exit-immediately clause -/
def stVisualCap : LoopState := { visual_iterations := MAX_VISUAL_ITERATIONS }

/-- the loop state entering round 2 of the `envPlateau` session -/
def stRound2 : LoopState :=
  { visual_iterations := 1, render_attempts := 1,
    current_code := some { code := "g" }, current_feedback := some fbBad,
    final_image_path := some "img.png", final_image_base64 := some "b64",
    feedback_history := [fbBad], renderCalls := 1, renderNames := ["attempt_1"],
    topKeys := [(1, false)], fixCalls := 0, reviseCalls := 0 }

/-! ## Helper lemmas -/

theorem chart_score_nonneg (evals : List EvaluationResult) : 0 ≤ chart_score evals := by
  unfold chart_score
  split
  · exact le_refl 0
  · positivity

theorem chart_score_le_one (evals : List EvaluationResult) : chart_score evals ≤ 1 := by
  unfold chart_score
  split
  · exact zero_le_one
  · rename_i h
    have hn : 0 < (evals.length : ℚ) := by
      have h0 : evals.length ≠ 0 := by simpa [List.length_eq_zero] using h
      exact_mod_cast Nat.pos_of_ne_zero h0
    rw [div_le_one hn]
    exact_mod_cast List.length_filter_le _ _

theorem evaluate_question_id (q : EvaluationQuestion) (r : Except String String) :
    (evaluate_question q r).id = q.id := by
  cases r <;> rfl

theorem evaluate_question_text (q : EvaluationQuestion) (r : Except String String) :
    (evaluate_question q r).question = q.question := by
  cases r <;> rfl

theorem evaluate_all_length (replies : Nat → Except String String)
    (questions : List EvaluationQuestion) :
    (evaluate_all replies questions).length = questions.length := by
  simp [evaluate_all]

/-! ## Claim theorems -/

/-- C2: for every evaluation round, `ChartAF.evaluate` computes
`score = count(yes) / count(questions)`; the score always lies in `[0, 1]`
(`0.0` for an empty evaluation list, with no division by zero), and the
round is approved exactly when `score ≥ 0.8`. -/
theorem chartaf_score_spec (replies : Nat → Except String String)
    (questions : List EvaluationQuestion) :
    0 ≤ chart_score (evaluate_all replies questions) ∧
    chart_score (evaluate_all replies questions) ≤ 1 ∧
    (evaluate_all replies questions).length = questions.length ∧
    (evaluate_all replies questions = [] →
      chart_score (evaluate_all replies questions) = 0) ∧
    (chart_is_approved (evaluate_all replies questions) = true ↔
      (8 : ℚ) / 10 ≤ chart_score (evaluate_all replies questions)) ∧
    (questions ≠ [] →
      chart_score (evaluate_all replies questions) =
        (yes_count (evaluate_all replies questions) : ℚ) / (questions.length : ℚ)) := by
  refine ⟨chart_score_nonneg _, chart_score_le_one _, evaluate_all_length replies questions,
    fun h => by simp [chart_score, h], ?_, ?_⟩
  · simp [chart_is_approved, APPROVAL_THRESHOLD]
  · intro h
    have hne : evaluate_all replies questions ≠ [] := by
      intro hc
      have := evaluate_all_length replies questions
      rw [hc] at this
      exact h (List.length_eq_zero.mp this.symm)
    rw [chart_score, if_neg hne, evaluate_all_length replies questions]

/-- witness for the hypothesis-bearing conjuncts of `chartaf_score_spec` -/
theorem chartaf_score_spec_witness :
    ([⟨1, "layout", "q", "f"⟩] : List EvaluationQuestion) ≠ [] ∧
    chart_score (evaluate_all (fun _ => .ok "YES") [⟨1, "layout", "q", "f"⟩]) =
      (yes_count (evaluate_all (fun _ => .ok "YES") [⟨1, "layout", "q", "f"⟩]) : ℚ) /
        ((([⟨1, "layout", "q", "f"⟩] : List EvaluationQuestion)).length : ℚ) :=
  ⟨by decide,
   (chartaf_score_spec (fun _ => .ok "YES") [⟨1, "layout", "q", "f"⟩]).2.2.2.2.2
     (by decide)⟩

theorem chart_score_append_false (l : List EvaluationResult) (e : EvaluationResult)
    (he : e.answer = false) : chart_score (l ++ [e]) ≤ chart_score l := by
  have hy : yes_count (l ++ [e]) = yes_count l := by
    simp [yes_count, List.filter_append, he]
  rcases eq_or_ne l [] with rfl | hl
  · simp [chart_score, yes_count, he]
  · have hne : l ++ [e] ≠ [] := by simp
    rw [chart_score, chart_score, if_neg hne, if_neg hl, hy]
    have h0 : (0 : ℚ) < (l.length : ℚ) := by
      exact_mod_cast List.length_pos.mpr hl
    have hlen : ((l ++ [e]).length : ℚ) = (l.length : ℚ) + 1 := by
      push_cast [List.length_append, List.length_singleton]
      ring
    rw [hlen]
    gcongr
    linarith

theorem evaluate_all_ids_perm (replies : Nat → Except String String)
    (qs : List EvaluationQuestion) :
    ((evaluate_all replies qs).map (fun r => (r.id, r.question))).Perm
      (qs.map (fun q' => (q'.id, q'.question))) := by
  unfold evaluate_all
  refine ((List.mergeSort_perm _ _).map _).trans ?_
  rw [List.map_map]
  have h1 : ((fun r : EvaluationResult => (r.id, r.question)) ∘
      fun p : Nat × EvaluationQuestion => evaluate_question p.2 (replies p.1)) =
      ((fun q' : EvaluationQuestion => (q'.id, q'.question)) ∘ Prod.snd) := by
    funext p
    simp [Function.comp, evaluate_question_id, evaluate_question_text]
  rw [h1, ← List.map_map]
  rw [List.enum, List.enumFrom_map_snd]

/-- C10: a VLM reply with neither a `YES` nor a `NO` token, or an exception
from the backend call, is recorded as a failed check (`answer = False`) with
an issue string attached; the question still appears in the result list;
and a `False` answer can only lower the round's score, never raise it. -/
theorem inspector_unanswerable_counts_against (q : EvaluationQuestion) :
    (∀ e, (evaluate_question q (.error e)).answer = false ∧
          (evaluate_question q (.error e)).issue = "Evaluation error: " ++ e) ∧
    (∀ t, containsSub (chars "YES") (toUpperChars (trimWs (chars t))) = false →
          containsSub (chars "NO") (toUpperChars (trimWs (chars t))) = false →
          (evaluate_question q (.ok t)).answer = false ∧
          (evaluate_question q (.ok t)).issue = q.question) ∧
    (∀ (replies : Nat → Except String String) (qs : List EvaluationQuestion),
        (evaluate_all replies qs).length = qs.length ∧
        ((evaluate_all replies qs).map (fun r => (r.id, r.question))).Perm
          (qs.map (fun q' => (q'.id, q'.question)))) ∧
    (∀ (l : List EvaluationResult) (e : EvaluationResult), e.answer = false →
        chart_score (l ++ [e]) ≤ chart_score l) := by
  refine ⟨fun e => ⟨rfl, rfl⟩, ?_, fun replies qs =>
    ⟨evaluate_all_length replies qs, evaluate_all_ids_perm replies qs⟩,
    chart_score_append_false⟩
  intro t h1 h2
  have hy : findSub (chars "YES") (toUpperChars (trimWs (chars t))) = none := by
    cases hfy : findSub (chars "YES") (toUpperChars (trimWs (chars t))) with
    | none => rfl
    | some v => rw [containsSub, hfy] at h1; simp at h1
  have hn : findSub (chars "NO") (toUpperChars (trimWs (chars t))) = none := by
    cases hfn : findSub (chars "NO") (toUpperChars (trimWs (chars t))) with
    | none => rfl
    | some v => rw [containsSub, hfn] at h2; simp at h2
  constructor <;> simp [evaluate_question, hy, hn]

/-- witness for `inspector_unanswerable_counts_against` -/
theorem inspector_unanswerable_witness :
    (evaluate_question ⟨1, "layout", "Is it ok?", "focus"⟩ (.ok "Maybe")).answer = false ∧
    (evaluate_question ⟨1, "layout", "Is it ok?", "focus"⟩ (.ok "Maybe")).issue = "Is it ok?" :=
  (inspector_unanswerable_counts_against ⟨1, "layout", "Is it ok?", "focus"⟩).2.1
    "Maybe" (by decide) (by decide)

/-- C4: `repair` (`fix_error`) never returns an artifact whose code is
byte-identical to its input broken code; unchanged output is surfaced as an
error instead.  (`fix_error` is modelled from the spec, see its docstring.) -/
theorem repair_never_returns_broken (resp broken code : List Char)
    (h : fix_error resp broken = .ok code) : code ≠ broken := by
  unfold fix_error at h
  cases he : extract_mermaid_code resp with
  | none => rw [he] at h; cases h
  | some c =>
    rw [he] at h
    dsimp only at h
    by_cases hc : c = broken
    · rw [if_pos hc] at h; cases h
    · rw [if_neg hc] at h
      cases h
      exact hc

/-- witness for `repair_never_returns_broken` -/
theorem repair_never_returns_broken_witness :
    fix_error (chars "```mermaid\ngraph TD\n```") (chars "flowchart") =
      .ok (chars "graph TD") ∧
    chars "graph TD" ≠ chars "flowchart" :=
  ⟨rfl, repair_never_returns_broken (chars "```mermaid\ngraph TD\n```")
    (chars "flowchart") (chars "graph TD") rfl⟩

/-- C8 counterexample: the source pipeline tries the JSON-field strategy
*before* the generic keyword-fence strategy, not after it as the claim
states.  On a response holding a ` ```json ` fenced payload, the code
returns the JSON `mermaid_code` field while the claimed order would return
the fenced block's text. -/
theorem extract_order_counterexample :
    extract_mermaid_code (chars "```json\n\x7b\"mermaid_code\": \"graph TD\"\x7d\n```") =
      some (chars "graph TD") ∧
    extract_spec_order (chars "```json\n\x7b\"mermaid_code\": \"graph TD\"\x7d\n```") =
      some (chars "json\n\x7b\"mermaid_code\": \"graph TD\"\x7d") ∧
    extract_mermaid_code (chars "```json\n\x7b\"mermaid_code\": \"graph TD\"\x7d\n```") ≠
      extract_spec_order (chars "```json\n\x7b\"mermaid_code\": \"graph TD\"\x7d\n```") :=
  ⟨by decide, by decide, by decide⟩

/-- C8 (amended): the extraction pipeline tries, in this order, (1) a fenced
block with the explicit `mermaid` tag, (2) a JSON field named for the code,
(3) any fenced block containing known diagram keywords; the first strategy
that yields code wins, and the call fails exactly when all three fail. -/
theorem extract_pipeline_order (response : List Char) :
    extract_mermaid_code response =
      firstSome [strategyTaggedFence response, strategyJsonField response,
                 strategyKeywordFence response] ∧
    (extract_mermaid_code response = none ↔
      strategyTaggedFence response = none ∧ strategyJsonField response = none ∧
      strategyKeywordFence response = none) := by
  have h : extract_mermaid_code response =
      firstSome [strategyTaggedFence response, strategyJsonField response,
                 strategyKeywordFence response] := by
    unfold extract_mermaid_code strategyTaggedFence strategyJsonField firstSome
    cases h1 : matchFencedAfter (chars "```mermaid") response with
    | some c => simp [h1]
    | none =>
      cases h2 : parse_json_response response with
      | none =>
        simp only [h1, h2, Option.map_none', List.findSome?]
        cases strategyKeywordFence response <;> simp
      | some obj =>
        simp only [h1, h2, Option.map_none', List.findSome?]
        split
        · simp
        · cases strategyKeywordFence response <;> simp
  refine ⟨h, ?_⟩
  rw [h]
  cases strategyTaggedFence response <;> cases strategyJsonField response <;>
    cases strategyKeywordFence response <;> simp [firstSome]

/-! ## Ping-pong trace properties -/

theorem pingPongAux_spec (env : LoopEnv) (remaining : Nat) :
    ∀ (attempt : Nat) (st : LoopState) (code err : String),
      (pingPongAux env remaining attempt st code err).2.2.length ≤ remaining ∧
      consecutiveFrom attempt (pingPongAux env remaining attempt st code err).2.2 ∧
      unchangedOnFixFail (pingPongAux env remaining attempt st code err).2.2 ∧
      (∀ e, (pingPongAux env remaining attempt st code err).2.2.head? = some e →
        e.codeUsed = code ∧ e.errUsed = err) ∧
      ((pingPongAux env remaining attempt st code err).2.1 = none →
        (pingPongAux env remaining attempt st code err).2.2.length = remaining ∧
        ∀ e ∈ (pingPongAux env remaining attempt st code err).2.2, e.renderOk = false) ∧
      (∀ c, (pingPongAux env remaining attempt st code err).2.1 = some c →
        ∃ e, (pingPongAux env remaining attempt st code err).2.2.getLast? = some e ∧
          e.fixOk = true ∧ e.fixedCode = some c ∧ e.renderOk = true) := by
  induction remaining with
  | zero =>
    intro attempt st code err
    refine ⟨by simp [pingPongAux], by simp [pingPongAux, consecutiveFrom],
      by simp [pingPongAux, unchangedOnFixFail], ?_, ?_, ?_⟩
    · intro e he; simp [pingPongAux] at he
    · intro _; simp [pingPongAux]
    · intro c hc; simp [pingPongAux] at hc
  | succ n ih =>
    intro attempt st code err
    simp only [pingPongAux]
    rcases hfe : env.fixError st.fixCalls (attempt % 2 == 0) code err with e | fixed
    · -- repair call raised: pass to the next coder without updating state
      obtain ⟨ih1, ih2, ih3, ih4, ih5, ih6⟩ :=
        ih (attempt + 1) { st with fixCalls := st.fixCalls + 1 } code err
      refine ⟨by simpa using ih1, ⟨rfl, rfl, ih2⟩, ?_, ?_, ?_, ?_⟩
      · cases htr : (pingPongAux env n (attempt + 1)
            { st with fixCalls := st.fixCalls + 1 } code err).2.2 with
        | nil => simp [unchangedOnFixFail]
        | cons e2 rest =>
          rw [htr] at ih3 ih4
          exact ⟨fun _ => (ih4 e2 rfl), ih3⟩
      · intro e he
        simp only [List.head?_cons, Option.some.injEq] at he
        subst he; exact ⟨rfl, rfl⟩
      · intro hres
        obtain ⟨hl, hall⟩ := ih5 hres
        refine ⟨by simpa using hl, ?_⟩
        intro e he
        rcases List.mem_cons.mp he with rfl | hmem
        · rfl
        · exact hall e hmem
      · intro c hc
        obtain ⟨e, hlast, h1, h2, h3⟩ := ih6 c hc
        refine ⟨e, ?_, h1, h2, h3⟩
        cases htr : (pingPongAux env n (attempt + 1)
            { st with fixCalls := st.fixCalls + 1 } code err).2.2 with
        | nil => rw [htr] at hlast; simp at hlast
        | cons b l => rw [htr] at hlast; rw [List.getLast?_cons_cons]; exact hlast
    · -- repair produced code: try rendering it
      simp only [doRender]
      split
      · -- render succeeded: immediate success with the fixed code
        refine ⟨by simp, ⟨rfl, rfl, trivial⟩, trivial, ?_, ?_, ?_⟩
        · intro e he
          simp only [List.head?_cons, Option.some.injEq] at he
          subst he; exact ⟨rfl, rfl⟩
        · intro hres; simp at hres
        · intro c hc
          simp only [Option.some.injEq] at hc
          subst hc
          exact ⟨_, List.getLast?_singleton _, rfl, rfl, rfl⟩
      · -- render failed: update broken code/error and continue
        obtain ⟨ih1, ih2, ih3, ih4, ih5, ih6⟩ :=
          ih (attempt + 1)
            { st with fixCalls := st.fixCalls + 1, renderCalls := st.renderCalls + 1,
                      renderNames := st.renderNames ++ ["_fix_" ++ toString attempt] }
            fixed.code
            (extractErrorMessageStr ((env.render st.renderCalls
              ("_fix_" ++ toString attempt) fixed.code).error.getD ""))
        refine ⟨by simpa using ih1, ⟨rfl, rfl, ih2⟩, ?_, ?_, ?_, ?_⟩
        · cases htr : (pingPongAux env n (attempt + 1)
              { st with fixCalls := st.fixCalls + 1, renderCalls := st.renderCalls + 1,
                        renderNames := st.renderNames ++ ["_fix_" ++ toString attempt] }
              fixed.code
              (extractErrorMessageStr ((env.render st.renderCalls
                ("_fix_" ++ toString attempt) fixed.code).error.getD ""))).2.2 with
          | nil => simp [unchangedOnFixFail]
          | cons e2 rest =>
            rw [htr] at ih3
            exact ⟨fun h => by simp at h, ih3⟩
        · intro e he
          simp only [List.head?_cons, Option.some.injEq] at he
          subst he; exact ⟨rfl, rfl⟩
        · intro hres
          obtain ⟨hl, hall⟩ := ih5 hres
          refine ⟨by simpa using hl, ?_⟩
          intro e he
          rcases List.mem_cons.mp he with rfl | hmem
          · rfl
          · exact hall e hmem
        · intro c hc
          obtain ⟨e, hlast, h1, h2, h3⟩ := ih6 c hc
          refine ⟨e, ?_, h1, h2, h3⟩
          cases htr : (pingPongAux env n (attempt + 1)
              { st with fixCalls := st.fixCalls + 1, renderCalls := st.renderCalls + 1,
                        renderNames := st.renderNames ++ ["_fix_" ++ toString attempt] }
              fixed.code
              (extractErrorMessageStr ((env.render st.renderCalls
                ("_fix_" ++ toString attempt) fixed.code).error.getD ""))).2.2 with
          | nil => rw [htr] at hlast; simp at hlast
          | cons b l => rw [htr] at hlast; rw [List.getLast?_cons_cons]; exact hlast

/-- C5: `_ping_pong_fix` alternates coder identities A, B, A, B, … for at
most `2 × MAX_PING_PONG_ROUNDS` (= 6) total attempts; a failed repair call
moves to the next identity without updating the current broken code or
error; a successfully rendered repair returns immediately with the new
code; and an exhausted budget returns failure (`(False, None)`, here
`none`) after exactly 6 attempts none of which rendered. -/
theorem ping_pong_protocol (env : LoopEnv) (st : LoopState) (code err : String) :
    (ping_pong_fix env st code err).2.2.length ≤ MAX_PING_PONG_ROUNDS * 2 ∧
    consecutiveFrom 0 (ping_pong_fix env st code err).2.2 ∧
    unchangedOnFixFail (ping_pong_fix env st code err).2.2 ∧
    (∀ e, (ping_pong_fix env st code err).2.2.head? = some e →
      e.codeUsed = code ∧ e.errUsed = err) ∧
    ((ping_pong_fix env st code err).2.1 = none →
      (ping_pong_fix env st code err).2.2.length = MAX_PING_PONG_ROUNDS * 2 ∧
      ∀ e ∈ (ping_pong_fix env st code err).2.2, e.renderOk = false) ∧
    (∀ c, (ping_pong_fix env st code err).2.1 = some c →
      ∃ e, (ping_pong_fix env st code err).2.2.getLast? = some e ∧
        e.fixOk = true ∧ e.fixedCode = some c ∧ e.renderOk = true) :=
  pingPongAux_spec env (MAX_PING_PONG_ROUNDS * 2) 0 st code err

/-! ## Loop-level helper lemmas -/

theorem evalStep_fields (env : LoopEnv) (p : LoopParams) (a : Nat) (st : LoopState)
    (code : MermaidCode) :
    (stepState (evalStep env p a st code)).visual_iterations = st.visual_iterations ∧
    (stepState (evalStep env p a st code)).render_attempts = st.render_attempts ∧
    (stepState (evalStep env p a st code)).current_code = st.current_code ∧
    (stepState (evalStep env p a st code)).final_image_path = st.final_image_path ∧
    (stepState (evalStep env p a st code)).final_image_base64 = st.final_image_base64 ∧
    (stepState (evalStep env p a st code)).topKeys = st.topKeys ∧
    (stepState (evalStep env p a st code)).renderCalls = st.renderCalls ∧
    (stepState (evalStep env p a st code)).renderNames = st.renderNames ∧
    (stepState (evalStep env p a st code)).reviseCalls = st.reviseCalls := by
  unfold evalStep
  split
  · exact ⟨rfl, rfl, rfl, rfl, rfl, rfl, rfl, rfl, rfl⟩
  · cases env.evaluate a code.code st.final_image_base64 with
    | error e => exact ⟨rfl, rfl, rfl, rfl, rfl, rfl, rfl, rfl, rfl⟩
    | ok fb =>
      dsimp only
      split
      · exact ⟨rfl, rfl, rfl, rfl, rfl, rfl, rfl, rfl, rfl⟩
      · split
        · exact ⟨rfl, rfl, rfl, rfl, rfl, rfl, rfl, rfl, rfl⟩
        · exact ⟨rfl, rfl, rfl, rfl, rfl, rfl, rfl, rfl, rfl⟩

theorem pingPongAux_core (env : LoopEnv) (remaining : Nat) :
    ∀ (attempt : Nat) (st : LoopState) (code err : String),
      ((pingPongAux env remaining attempt st code err).1.visual_iterations
        = st.visual_iterations) ∧
      ((pingPongAux env remaining attempt st code err).1.render_attempts
        = st.render_attempts) ∧
      ((pingPongAux env remaining attempt st code err).1.current_code
        = st.current_code) ∧
      ((pingPongAux env remaining attempt st code err).1.current_feedback
        = st.current_feedback) ∧
      ((pingPongAux env remaining attempt st code err).1.final_image_path
        = st.final_image_path) ∧
      ((pingPongAux env remaining attempt st code err).1.final_image_base64
        = st.final_image_base64) ∧
      ((pingPongAux env remaining attempt st code err).1.feedback_history
        = st.feedback_history) ∧
      ((pingPongAux env remaining attempt st code err).1.reviseCalls
        = st.reviseCalls) ∧
      ((pingPongAux env remaining attempt st code err).1.topKeys
        = st.topKeys) := by
  induction remaining with
  | zero =>
    intro attempt st code err
    exact ⟨rfl, rfl, rfl, rfl, rfl, rfl, rfl, rfl, rfl⟩
  | succ n ih =>
    intro attempt st code err
    simp only [pingPongAux]
    rcases env.fixError st.fixCalls (attempt % 2 == 0) code err with e | fixed
    · exact ih (attempt + 1) _ code err
    · simp only [doRender]
      split
      · exact ⟨rfl, rfl, rfl, rfl, rfl, rfl, rfl, rfl, rfl⟩
      · exact ih (attempt + 1) _ _ _

theorem pingPongAux_none_of_renders_fail (env : LoopEnv)
    (hr : ∀ n name c, (env.render n name c).success = false) (remaining : Nat) :
    ∀ (attempt : Nat) (st : LoopState) (code err : String),
      (pingPongAux env remaining attempt st code err).2.1 = none := by
  induction remaining with
  | zero => intro attempt st code err; rfl
  | succ n ih =>
    intro attempt st code err
    simp only [pingPongAux]
    rcases env.fixError st.fixCalls (attempt % 2 == 0) code err with e | fixed
    · exact ih (attempt + 1) _ code err
    · simp only [doRender]
      rw [if_neg (by rw [hr]; exact Bool.false_ne_true)]
      exact ih (attempt + 1) _ _ _

theorem loopGo_exit (env : LoopEnv) (p : LoopParams) (fuel : Nat) (st : LoopState)
    (h : ¬(st.visual_iterations < MAX_VISUAL_ITERATIONS ∧
          st.render_attempts < MAX_RENDER_RETRIES * 2)) :
    loopGo env p fuel st = st := by
  cases fuel with
  | zero => rfl
  | succ n => rw [loopGo, if_neg h]

theorem loopGo_invariant (env : LoopEnv) (p : LoopParams) (Q : LoopState → Prop)
    (hstep : ∀ st, st.visual_iterations < MAX_VISUAL_ITERATIONS →
      st.render_attempts < MAX_RENDER_RETRIES * 2 → Q st →
      Q (stepState (loopIter env p st))) :
    ∀ (fuel : Nat) (st : LoopState), Q st → Q (loopGo env p fuel st) := by
  intro fuel
  induction fuel with
  | zero => intro st h; exact h
  | succ n ih =>
    intro st h
    rw [loopGo]
    by_cases hg : st.visual_iterations < MAX_VISUAL_ITERATIONS ∧
        st.render_attempts < MAX_RENDER_RETRIES * 2
    · rw [if_pos hg]
      have h' := hstep st hg.1 hg.2 h
      cases hli : loopIter env p st with
      | inl st' => rw [hli] at h'; exact ih st' h'
      | inr st' => rw [hli] at h'; exact h'
    · rw [if_neg hg]; exact h

theorem evalStep_visual (env : LoopEnv) (p : LoopParams) (a : Nat) (st : LoopState)
    (code : MermaidCode) :
    (stepState (evalStep env p a st code)).visual_iterations = st.visual_iterations :=
  (evalStep_fields env p a st code).1

theorem evalStep_attempts (env : LoopEnv) (p : LoopParams) (a : Nat) (st : LoopState)
    (code : MermaidCode) :
    (stepState (evalStep env p a st code)).render_attempts = st.render_attempts :=
  (evalStep_fields env p a st code).2.1

theorem evalStep_code (env : LoopEnv) (p : LoopParams) (a : Nat) (st : LoopState)
    (code : MermaidCode) :
    (stepState (evalStep env p a st code)).current_code = st.current_code :=
  (evalStep_fields env p a st code).2.2.1

theorem evalStep_image (env : LoopEnv) (p : LoopParams) (a : Nat) (st : LoopState)
    (code : MermaidCode) :
    (stepState (evalStep env p a st code)).final_image_path = st.final_image_path :=
  (evalStep_fields env p a st code).2.2.2.1

theorem evalStep_topKeys (env : LoopEnv) (p : LoopParams) (a : Nat) (st : LoopState)
    (code : MermaidCode) :
    (stepState (evalStep env p a st code)).topKeys = st.topKeys :=
  (evalStep_fields env p a st code).2.2.2.2.2.1

theorem evalStep_reviseCalls (env : LoopEnv) (p : LoopParams) (a : Nat) (st : LoopState)
    (code : MermaidCode) :
    (stepState (evalStep env p a st code)).reviseCalls = st.reviseCalls :=
  (evalStep_fields env p a st code).2.2.2.2.2.2.2.2

theorem pingPong_visual (env : LoopEnv) (st : LoopState) (code err : String) :
    (ping_pong_fix env st code err).1.visual_iterations = st.visual_iterations :=
  (pingPongAux_core env (MAX_PING_PONG_ROUNDS * 2) 0 st code err).1

theorem pingPong_attempts (env : LoopEnv) (st : LoopState) (code err : String) :
    (ping_pong_fix env st code err).1.render_attempts = st.render_attempts :=
  (pingPongAux_core env (MAX_PING_PONG_ROUNDS * 2) 0 st code err).2.1

theorem pingPong_code (env : LoopEnv) (st : LoopState) (code err : String) :
    (ping_pong_fix env st code err).1.current_code = st.current_code :=
  (pingPongAux_core env (MAX_PING_PONG_ROUNDS * 2) 0 st code err).2.2.1

theorem pingPong_image (env : LoopEnv) (st : LoopState) (code err : String) :
    (ping_pong_fix env st code err).1.final_image_path = st.final_image_path :=
  (pingPongAux_core env (MAX_PING_PONG_ROUNDS * 2) 0 st code err).2.2.2.2.1

theorem pingPong_history (env : LoopEnv) (st : LoopState) (code err : String) :
    (ping_pong_fix env st code err).1.feedback_history = st.feedback_history :=
  (pingPongAux_core env (MAX_PING_PONG_ROUNDS * 2) 0 st code err).2.2.2.2.2.2.1

theorem pingPong_reviseCalls (env : LoopEnv) (st : LoopState) (code err : String) :
    (ping_pong_fix env st code err).1.reviseCalls = st.reviseCalls :=
  (pingPongAux_core env (MAX_PING_PONG_ROUNDS * 2) 0 st code err).2.2.2.2.2.2.2.1

theorem pingPong_topKeys (env : LoopEnv) (st : LoopState) (code err : String) :
    (ping_pong_fix env st code err).1.topKeys = st.topKeys :=
  (pingPongAux_core env (MAX_PING_PONG_ROUNDS * 2) 0 st code err).2.2.2.2.2.2.2.2

theorem loopIter_attempts (env : LoopEnv) (p : LoopParams) (st : LoopState) :
    (stepState (loopIter env p st)).render_attempts = st.render_attempts + 1 := by
  unfold loopIter
  cases hc : coderCall env st with
  | error e => rfl
  | ok code =>
    simp only [doRenderTop]
    split
    · rw [evalStep_attempts]; simp [afterCoder]
    · split
      · split
        · split
          · rw [evalStep_attempts]
            simp [pingPong_attempts, afterCoder]
          · simp [stepState, pingPong_attempts, afterCoder]
        · simp [stepState, pingPong_attempts, afterCoder]
      · rfl

theorem loopIter_visual_bounds (env : LoopEnv) (p : LoopParams) (st : LoopState) :
    st.visual_iterations ≤ (stepState (loopIter env p st)).visual_iterations ∧
    (stepState (loopIter env p st)).visual_iterations ≤ st.visual_iterations + 1 := by
  unfold loopIter
  cases hc : coderCall env st with
  | error e => exact ⟨le_refl _, Nat.le_succ _⟩
  | ok code =>
    simp only [doRenderTop]
    split
    · constructor <;> (rw [evalStep_visual]; simp [afterCoder])
    · split
      · split
        · split
          · constructor <;> (rw [evalStep_visual]; simp [pingPong_visual, afterCoder])
          · constructor <;> simp [stepState, pingPong_visual, afterCoder]
        · constructor <;> simp [stepState, pingPong_visual, afterCoder]
      · constructor <;> simp [stepState, afterCoder]

theorem loopIter_invP (env : LoopEnv) (p : LoopParams) (st : LoopState)
    (hP : st.final_image_path.isSome = true → st.current_code.isSome = true) :
    (stepState (loopIter env p st)).final_image_path.isSome = true →
    (stepState (loopIter env p st)).current_code.isSome = true := by
  unfold loopIter
  cases hc : coderCall env st with
  | error e => intro h; exact hP h
  | ok code =>
    simp only [doRenderTop]
    split
    · rw [evalStep_code]; intro _; rfl
    · split
      · split
        · split
          · rw [evalStep_code]; intro _; rfl
          · intro _; rfl
        · intro _; simp [stepState, pingPong_code]
      · intro _; rfl

theorem loopIter_topKeys (env : LoopEnv) (p : LoopParams) (st : LoopState) :
    (stepState (loopIter env p st)).topKeys = st.topKeys ∨
    (stepState (loopIter env p st)).topKeys
      = st.topKeys ++ [(st.render_attempts + 1, false)] ∨
    (stepState (loopIter env p st)).topKeys
      = st.topKeys ++ [(st.render_attempts + 1, false), (st.render_attempts + 1, true)] := by
  unfold loopIter
  cases hc : coderCall env st with
  | error e => exact Or.inl rfl
  | ok code =>
    simp only [doRenderTop]
    split
    · refine Or.inr (Or.inl ?_)
      rw [evalStep_topKeys]; simp [afterCoder]
    · split
      · split
        · split
          · refine Or.inr (Or.inr ?_)
            rw [evalStep_topKeys]; simp [pingPong_topKeys, afterCoder]
          · refine Or.inr (Or.inr ?_)
            simp [stepState, pingPong_topKeys, afterCoder]
        · refine Or.inr (Or.inl ?_)
          simp [stepState, pingPong_topKeys, afterCoder]
      · refine Or.inr (Or.inl ?_)
        simp [stepState, afterCoder]

theorem loopIter_image_renders_fail (env : LoopEnv) (p : LoopParams) (st : LoopState)
    (hr : ∀ n name c, (env.render n name c).success = false) :
    (stepState (loopIter env p st)).final_image_path = st.final_image_path := by
  unfold loopIter
  cases hc : coderCall env st with
  | error e => rfl
  | ok code =>
    simp only [doRenderTop]
    rw [if_neg (by rw [hr]; exact Bool.false_ne_true)]
    split
    · have hnone : ∀ (st' : LoopState) (c e : String),
          (ping_pong_fix env st' c e).2.1 = none :=
        fun st' c e => pingPongAux_none_of_renders_fail env hr _ 0 st' c e
      rw [hnone]
      simp [stepState, pingPong_image, afterCoder]
    · simp [stepState, afterCoder]

/-- C1 (amended): the loop-level `render_attempts` counter (one increment
per `while` iteration) never exceeds `2 × MAX_RENDER_RETRIES`, the number
of evaluated visual iterations never exceeds `MAX_VISUAL_ITERATIONS`, and
the loop exits as soon as either cap is hit — but the counter counts loop
iterations, not every render call (see `render_call_count_exceeds_cap`). -/
theorem chart_loop_budgets (env : LoopEnv) (p : LoopParams) :
    (finalLoopState env p).render_attempts ≤ MAX_RENDER_RETRIES * 2 ∧
    (finalLoopState env p).visual_iterations ≤ MAX_VISUAL_ITERATIONS ∧
    (∀ (fuel : Nat) (st : LoopState),
      MAX_VISUAL_ITERATIONS ≤ st.visual_iterations ∨
      MAX_RENDER_RETRIES * 2 ≤ st.render_attempts →
      loopGo env p fuel st = st) := by
  have hb := loopGo_invariant env p
    (fun st => st.render_attempts ≤ MAX_RENDER_RETRIES * 2 ∧
               st.visual_iterations ≤ MAX_VISUAL_ITERATIONS)
    (fun st hv ha hq => by
      have h1 := loopIter_attempts env p st
      have h2 := (loopIter_visual_bounds env p st).2
      constructor
      · omega
      · omega)
    (MAX_RENDER_RETRIES * 2) initState (by constructor <;> simp [initState])
  refine ⟨hb.1, hb.2, ?_⟩
  intro fuel st h
  apply loopGo_exit
  omega

/-- witness for the exit clause of `chart_loop_budgets` -/
theorem chart_loop_budgets_witness :
    (MAX_VISUAL_ITERATIONS ≤ stVisualCap.visual_iterations ∨
     MAX_RENDER_RETRIES * 2 ≤ stVisualCap.render_attempts) ∧
    loopGo envAllFail {} 5 stVisualCap = stVisualCap :=
  ⟨Or.inl (by decide),
   (chart_loop_budgets envAllFail {}).2.2 5 stVisualCap (Or.inl (by decide))⟩

/-- C1 counterexample: with the render-attempt counter read as "every render
call made for the request" the cap fails — on a run whose renders all fail,
the session makes 56 render calls (8 top-level plus 6 ping-pong renders per
iteration), exceeding `2 × MAX_RENDER_RETRIES = 8`. -/
theorem render_call_count_exceeds_cap :
    (finalLoopState envAllFail {}).renderCalls = 56 ∧
    MAX_RENDER_RETRIES * 2 < (finalLoopState envAllFail {}).renderCalls := by
  constructor
  · decide
  · decide

/-- C6: after a successful design step the returned result has
`success = true` iff a final image path exists, independent of approval;
the result carries the per-round approval flags in `feedback_history`
(its last round being the decoupled approval flag), and a run exists with
`success = true` and approval `false`. -/
theorem chart_success_iff_image (env : LoopEnv) (p : LoopParams)
    (hd : env.design = .ok ()) :
    ((ChartLoop_run env p).success = true ↔
      (finalLoopState env p).final_image_path.isSome = true) ∧
    (ChartLoop_run env p).feedback_history = (finalLoopState env p).feedback_history ∧
    ((ChartLoop_run envUnapproved {}).success = true ∧
      lastRoundApproved (ChartLoop_run envUnapproved {}) = false) := by
  have hP : (finalLoopState env p).final_image_path.isSome = true →
      (finalLoopState env p).current_code.isSome = true :=
    loopGo_invariant env p
      (fun st => st.final_image_path.isSome = true → st.current_code.isSome = true)
      (fun st _ _ hq => loopIter_invP env p st hq)
      (MAX_RENDER_RETRIES * 2) initState (by intro h; simp [initState] at h)
  have hrun : ChartLoop_run env p = mkChartResult p (finalLoopState env p) := by
    unfold ChartLoop_run; rw [hd]
  refine ⟨?_, by rw [hrun]; rfl, by decide, by decide⟩
  rw [hrun]
  unfold mkChartResult
  simp only [Bool.and_eq_true]
  constructor
  · intro h; exact h.2
  · intro h; exact ⟨hP h, h⟩

/-- witness for `chart_success_iff_image` -/
theorem chart_success_iff_image_witness :
    ((ChartLoop_run envUnapproved {}).success = true ↔
      (finalLoopState envUnapproved {}).final_image_path.isSome = true) ∧
    (ChartLoop_run envUnapproved {}).feedback_history =
      (finalLoopState envUnapproved {}).feedback_history ∧
    ((ChartLoop_run envUnapproved {}).success = true ∧
      lastRoundApproved (ChartLoop_run envUnapproved {}) = false) :=
  chart_success_iff_image envUnapproved {} rfl

/-- C7: if every render call fails, `ChartLoop.run` (after a successful
design step) terminates normally — the embedding is a total function — with
`success = false` and the descriptive error string the source produces. -/
theorem renders_always_fail_safe (env : LoopEnv) (p : LoopParams)
    (hd : env.design = .ok ())
    (hr : ∀ n name c, (env.render n name c).success = false) :
    (ChartLoop_run env p).success = false ∧
    (ChartLoop_run env p).error = some "Failed to generate chart" := by
  have himg : (finalLoopState env p).final_image_path = none :=
    loopGo_invariant env p (fun st => st.final_image_path = none)
      (fun st _ _ hq => by
        show (stepState (loopIter env p st)).final_image_path = none
        rw [loopIter_image_renders_fail env p st hr]
        exact hq)
      (MAX_RENDER_RETRIES * 2) initState rfl
  have hrun : ChartLoop_run env p = mkChartResult p (finalLoopState env p) := by
    unfold ChartLoop_run; rw [hd]
  rw [hrun]
  unfold mkChartResult
  rw [himg]
  simp

/-- witness for `renders_always_fail_safe` -/
theorem renders_always_fail_safe_witness :
    (ChartLoop_run envAllFail {}).success = false ∧
    (ChartLoop_run envAllFail {}).error = some "Failed to generate chart" :=
  renders_always_fail_safe envAllFail {} rfl (fun _ _ _ => rfl)

theorem fixName_inj_lt6 : ∀ i, i < 6 → ∀ j, j < 6 →
    ("_fix_" ++ toString i) = ("_fix_" ++ toString j) → i = j := by decide

theorem topName_inj_lt9 : ∀ a, a < 9 → ∀ b, b < 9 → ∀ (x y : Bool),
    topName (a, x) = topName (b, y) → a = b ∧ x = y := by decide

theorem pingPongAux_names (env : LoopEnv) (remaining : Nat) :
    ∀ (attempt : Nat) (st : LoopState) (code err : String),
      attempt + remaining ≤ MAX_PING_PONG_ROUNDS * 2 →
      ∃ ns, (pingPongAux env remaining attempt st code err).1.renderNames
              = st.renderNames ++ ns ∧ ns.Nodup ∧
        ∀ nm ∈ ns, ∃ j, attempt ≤ j ∧ j < MAX_PING_PONG_ROUNDS * 2 ∧
          nm = "_fix_" ++ toString j := by
  induction remaining with
  | zero =>
    intro attempt st code err h
    exact ⟨[], by simp [pingPongAux], List.nodup_nil, by simp⟩
  | succ n ih =>
    intro attempt st code err h
    simp only [pingPongAux]
    rcases env.fixError st.fixCalls (attempt % 2 == 0) code err with e | fixed
    · obtain ⟨ns, h1, h2, h3⟩ := ih (attempt + 1) _ code err (by omega)
      refine ⟨ns, by simpa using h1, h2, ?_⟩
      intro nm hm
      obtain ⟨j, hj1, hj2, hj3⟩ := h3 nm hm
      exact ⟨j, by omega, hj2, hj3⟩
    · simp only [doRender]
      split
      · refine ⟨["_fix_" ++ toString attempt], by simp, by simp, ?_⟩
        intro nm hm
        simp only [List.mem_singleton] at hm
        exact ⟨attempt, le_refl _, by omega, hm⟩
      · obtain ⟨ns, h1, h2, h3⟩ := ih (attempt + 1)
          { st with fixCalls := st.fixCalls + 1, renderCalls := st.renderCalls + 1,
                    renderNames := st.renderNames ++ ["_fix_" ++ toString attempt] }
          fixed.code
          (extractErrorMessageStr ((env.render st.renderCalls
            ("_fix_" ++ toString attempt) fixed.code).error.getD "")) (by omega)
        refine ⟨("_fix_" ++ toString attempt) :: ns, by simpa using h1, ?_, ?_⟩
        · rw [List.nodup_cons]
          refine ⟨?_, h2⟩
          intro hmem
          obtain ⟨j, hj1, hj2, hj3⟩ := h3 _ hmem
          have h6 : MAX_PING_PONG_ROUNDS * 2 = 6 := rfl
          have := fixName_inj_lt6 attempt (by omega) j (by omega) hj3
          omega
        · intro nm hm
          rcases List.mem_cons.mp hm with rfl | hmem
          · exact ⟨attempt, le_refl _, by omega, rfl⟩
          · obtain ⟨j, hj1, hj2, hj3⟩ := h3 nm hmem
            exact ⟨j, by omega, hj2, hj3⟩

theorem loopIter_keys (env : LoopEnv) (p : LoopParams) (st : LoopState)
    (ha : st.render_attempts < MAX_RENDER_RETRIES * 2)
    (h : (st.topKeys.map topName).Nodup ∧
         (∀ k ∈ st.topKeys, 1 ≤ k.1 ∧ k.1 ≤ st.render_attempts) ∧
         st.render_attempts ≤ MAX_RENDER_RETRIES * 2) :
    ((stepState (loopIter env p st)).topKeys.map topName).Nodup ∧
    (∀ k ∈ (stepState (loopIter env p st)).topKeys,
      1 ≤ k.1 ∧ k.1 ≤ (stepState (loopIter env p st)).render_attempts) ∧
    (stepState (loopIter env p st)).render_attempts ≤ MAX_RENDER_RETRIES * 2 := by
  obtain ⟨hnd, hbound, hle⟩ := h
  have hatt := loopIter_attempts env p st
  have h8 : MAX_RENDER_RETRIES * 2 = 8 := rfl
  have hnew : ∀ (x : Bool),
      topName (st.render_attempts + 1, x) ∉ st.topKeys.map topName := by
    intro x hmem
    obtain ⟨k, hk, hkeq⟩ := List.mem_map.mp hmem
    obtain ⟨hk1, hk2⟩ := hbound k hk
    have := topName_inj_lt9 k.1 (by omega) (st.render_attempts + 1) (by omega)
      k.2 x hkeq
    omega
  have hne : topName (st.render_attempts + 1, false) ≠
      topName (st.render_attempts + 1, true) := by
    intro hcon
    have := topName_inj_lt9 (st.render_attempts + 1) (by omega)
      (st.render_attempts + 1) (by omega) false true hcon
    simp at this
  rcases loopIter_topKeys env p st with hk | hk | hk
  · refine ⟨by rw [hk]; exact hnd, ?_, by omega⟩
    rw [hk, hatt]
    intro k hkm
    have := hbound k hkm
    omega
  · refine ⟨?_, ?_, by omega⟩
    · rw [hk, List.map_append, List.nodup_append]
      refine ⟨hnd, by simp, ?_⟩
      intro x hx hx2
      simp only [List.map_cons, List.map_nil, List.mem_cons,
        List.not_mem_nil, or_false] at hx2
      rw [hx2] at hx
      exact hnew false hx
    · rw [hk, hatt]
      intro k hkm
      rcases List.mem_append.mp hkm with hold | hnew2
      · have := hbound k hold; omega
      · simp only [List.mem_singleton] at hnew2
        subst hnew2
        exact ⟨by omega, by omega⟩
  · refine ⟨?_, ?_, by omega⟩
    · rw [hk, List.map_append, List.nodup_append]
      refine ⟨hnd, ?_, ?_⟩
      · simp only [List.map_cons, List.map_nil, List.nodup_cons,
          List.mem_cons, List.not_mem_nil, or_false, List.nodup_singleton,
          and_true, List.mem_singleton]
        exact ⟨hne, by simp, List.nodup_nil⟩
      · intro x hx hx2
        simp only [List.map_cons, List.map_nil, List.mem_cons,
          List.not_mem_nil, or_false, List.mem_singleton] at hx2
        rcases hx2 with hx2 | hx2
        · rw [hx2] at hx; exact hnew false hx
        · rw [hx2] at hx; exact hnew true hx
    · rw [hk, hatt]
      intro k hkm
      rcases List.mem_append.mp hkm with hold | hnew2
      · have := hbound k hold; omega
      · rcases List.mem_cons.mp hnew2 with h1 | h1
        · subst h1; exact ⟨by omega, by omega⟩
        · simp only [List.mem_singleton] at h1
          subst h1; exact ⟨by omega, by omega⟩

/-- C9 (amended): top-level render attempts (one `attempt_k` / one
`attempt_k_fixed` per loop iteration) write uniquely-named files within a
session, and the renders of a *single* `_ping_pong_fix` invocation also use
distinct names — but ping-pong renders reuse `_fix_0` … `_fix_5` across
invocations of the same session (see `ping_pong_name_collision`). -/
theorem render_names_uniqueness (env : LoopEnv) (p : LoopParams) :
    ((finalLoopState env p).topKeys.map topName).Nodup ∧
    (∀ (st : LoopState) (code err : String),
      ∃ ns, (ping_pong_fix env st code err).1.renderNames = st.renderNames ++ ns ∧
        ns.Nodup) := by
  constructor
  · have hR := loopGo_invariant env p
      (fun st => (st.topKeys.map topName).Nodup ∧
        (∀ k ∈ st.topKeys, 1 ≤ k.1 ∧ k.1 ≤ st.render_attempts) ∧
        st.render_attempts ≤ MAX_RENDER_RETRIES * 2)
      (fun st _ ha hq => loopIter_keys env p st ha hq)
      (MAX_RENDER_RETRIES * 2) initState
      ⟨by simp [initState], by simp [initState], Nat.zero_le _⟩
    exact hR.1
  · intro st code err
    obtain ⟨ns, h1, h2, _⟩ :=
      pingPongAux_names env (MAX_PING_PONG_ROUNDS * 2) 0 st code err (by omega)
    exact ⟨ns, h1, h2⟩

/-- C9 counterexample: in a session whose renders all fail, the ping-pong
output name `_fix_0` is used by eight distinct render calls (one per loop
iteration), so repeated render attempts in the same session write the same
output path. -/
theorem ping_pong_name_collision :
    (finalLoopState envAllFail {}).renderNames.count "_fix_0" = 8 ∧
    ¬ (finalLoopState envAllFail {}).renderNames.Nodup := by
  constructor
  · decide
  · decide

/-- C3: when an evaluation round comes back unapproved and the token-set
overlap with the previous round's issues exceeds 0.6, the loop breaks on
that round: the returned state carries exactly the history up to this round
(nothing is appended afterwards), keeps the current code and image, and
makes no further revise call (`reviseCalls` stays at the value it had after
this round's coder call). -/
theorem plateau_terminates_round (env : LoopEnv) (p : LoopParams) (fuel : Nat)
    (st : LoopState) (code : MermaidCode) (fb : VisualFeedback)
    (hv : st.visual_iterations < MAX_VISUAL_ITERATIONS)
    (ha : st.render_attempts < MAX_RENDER_RETRIES * 2)
    (hskip : p.skip_inspection = false)
    (hc : coderCall env st = .ok code)
    (hs : (env.render st.renderCalls (topName (st.render_attempts + 1, false))
        code.code).success = true)
    (he : env.evaluate (st.render_attempts + 1) code.code
        (env.render st.renderCalls (topName (st.render_attempts + 1, false))
          code.code).image_base64 = .ok fb)
    (happ : fb.is_approved = false)
    (hrep : is_repeated_feedback (st.feedback_history ++ [fb]) = true) :
    (loopGo env p (fuel + 1) st).feedback_history = st.feedback_history ++ [fb] ∧
    (loopGo env p (fuel + 1) st).current_feedback = some fb ∧
    (loopGo env p (fuel + 1) st).current_code = some code ∧
    (loopGo env p (fuel + 1) st).final_image_path =
      (env.render st.renderCalls (topName (st.render_attempts + 1, false))
        code.code).image_path ∧
    (loopGo env p (fuel + 1) st).reviseCalls = (afterCoder st).reviseCalls := by
  rw [loopGo, if_pos (And.intro hv ha)]
  unfold loopIter evalStep
  rw [hc]
  simp only [doRenderTop, afterCoder, hs, hskip, Bool.false_eq_true, if_false,
    ite_true, ite_false, if_true]
  rw [he]
  simp only [happ, Bool.false_eq_true, if_false, ite_false, hrep, if_true, ite_true]
  exact ⟨trivial, trivial, trivial, trivial, trivial⟩

theorem is_repeated_of_duplicate (fb : VisualFeedback)
    (h : tokensOf fb.issues ≠ []) : is_repeated_feedback [fb, fb] = true := by
  unfold is_repeated_feedback
  rw [if_neg (by simp)]
  have h1 : ([fb, fb] : List VisualFeedback).getLast? = some fb := rfl
  have h2 : ([fb, fb] : List VisualFeedback).dropLast.getLast? = some fb := rfl
  rw [h1, h2]
  dsimp only [Option.map_some', Option.getD_some]
  rw [if_pos ⟨h, h⟩]
  have hfil : (tokensOf fb.issues).filter (· ∈ tokensOf fb.issues)
      = tokensOf fb.issues := by
    apply List.filter_eq_self.mpr
    intro a ha
    simpa using ha
  rw [hfil, sup_idem, decide_eq_true_eq]
  have hT : 0 < ((tokensOf fb.issues).length : ℚ) := by
    exact_mod_cast List.length_pos.mpr h
  rw [div_self (ne_of_gt hT)]
  norm_num

/-- witness for `plateau_terminates_round` -/
theorem plateau_terminates_round_witness :
    is_repeated_feedback (stRound2.feedback_history ++ [fbBad]) = true ∧
    (loopGo envPlateau {} 7 stRound2).feedback_history
      = stRound2.feedback_history ++ [fbBad] ∧
    (loopGo envPlateau {} 7 stRound2).current_feedback = some fbBad ∧
    (loopGo envPlateau {} 7 stRound2).reviseCalls
      = (afterCoder stRound2).reviseCalls := by
  have hrep : is_repeated_feedback (stRound2.feedback_history ++ [fbBad]) = true :=
    is_repeated_of_duplicate fbBad (by decide)
  obtain ⟨h1, h2, _, _, h5⟩ := plateau_terminates_round envPlateau {} 6 stRound2
    { code := "g" } fbBad (by decide) (by decide) rfl rfl rfl rfl rfl hrep
  exact ⟨hrep, h1, h2, h5⟩

/-- witness for `ping_pong_protocol` -/
theorem ping_pong_protocol_witness :
    (ping_pong_fix envPing initState "bad" "err").2.1 =
      some ⟨"fixed", "flowchart", 1⟩ ∧
    ∃ e, (ping_pong_fix envPing initState "bad" "err").2.2.getLast? = some e ∧
      e.fixOk = true ∧ e.fixedCode = some ⟨"fixed", "flowchart", 1⟩ ∧
      e.renderOk = true :=
  ⟨rfl, (ping_pong_protocol envPing initState "bad" "err").2.2.2.2.2
    ⟨"fixed", "flowchart", 1⟩ rfl⟩

end DocuChan
